import Mathlib

/-!
Verification of the copernicus_api client (src/src/copernicus_api.py,
src/src/exceptions.py) against its natural-language specification.

The Python module is shallowly embedded: each mission class becomes a value of
`MissionAPI`; `_build_query` becomes the pure function `build_query` returning
`Except` (a raised `ValueError` becomes `Except.error`); Python truthiness
tests (`if prod_type:`) are modelled by `truthyStr` / `truthyInt`; pandas
DataFrames become lists of rows, a row being an association list from column
name to `Value`; the network is abstracted by explicit response values
(`HttpResult`, `QueryHttp`) handed to the functions that the code lets
`requests` produce; the thread-pool download batch is sequentialised, each
submitted task contributing its own effects (token fetches, files written,
progress ticks, a captured exception) exactly as the worker body produces
them — the aggregate counts proved about it are completion-order independent.
-/

namespace Copernicus

/-- Base URL constants of the module (copernicus_api.py lines 18-20). -/
def CATALOG_URL : String :=
  "https://catalogue.dataspace.copernicus.eu/odata/v1/Products?$filter=Collection"

def TOKEN_URL : String :=
  "https://identity.dataspace.copernicus.eu/auth/realms/CDSE/protocol/openid-connect/token"

def DOWNLOAD_URL : String :=
  "https://zipper.dataspace.copernicus.eu/odata/v1/Products"

/-- A mission client: the two abstract properties every concrete subclass of
`CopernicusDataspaceAPI` provides (`mission`, `prod_types`). -/
structure MissionAPI where
  mission : String
  prod_types : List String

/-- `Sentinel1API` (copernicus_api.py lines 262-271). -/
def Sentinel1API : MissionAPI :=
  { mission := "SENTINEL-1"
  , prod_types := ["RAW", "SLC", "GRD", "GRDH", "GRDM", "OCN", "IW", "EW"] }

/-- `Sentinel2API` (copernicus_api.py lines 274-283). -/
def Sentinel2API : MissionAPI :=
  { mission := "SENTINEL-2", prod_types := ["L1C", "L2A"] }

/-- `Sentinel3API` (copernicus_api.py lines 286-295). -/
def Sentinel3API : MissionAPI :=
  { mission := "SENTINEL-3"
  , prod_types := ["OL_1", "OL_2", "SL_1", "SL_2", "SR_1", "SR_2", "SR", "SY_2"] }

/-- `Sentinel5API` (copernicus_api.py lines 298-311). -/
def Sentinel5API : MissionAPI :=
  { mission := "SENTINEL-5P"
  , prod_types := ["L1B_RA_BD1", "L1B_RA_BD2", "L1B_RA_BD3", "L1B_RA_BD4",
                   "L1B_RA_BD5", "L1B_RA_BD6", "L1B_RA_BD7", "L1B_RA_BD8",
                   "L2__AER_AI", "L2__AER_LH", "L2__CH4", "L2__CLOUD", "L2__CO",
                   "L2__HCHO", "L2__NO2", "L2__NP_BD3", "L2__NP_BD6", "L2__NP_BD7",
                   "L2__O3_TCL", "L2__O3__PR", "L2__O3", "L2__SO2"] }

/-- `Sentinel6API` (copernicus_api.py lines 314-323). Its `mission` property
returns the literal written in the source, which is the string "SENTINEL-3". -/
def Sentinel6API : MissionAPI :=
  { mission := "SENTINEL-3", prod_types := ["MW_2__AMR", "P4_1B_LR", "P4_2__LR"] }

/-- Python truthiness of an optional string argument (`if prod_type:`):
`None` and the empty string are falsy. -/
def truthyStr : Option String → Bool
  | none => false
  | some s => !s.isEmpty

/-- Python truthiness of an optional integer argument (`if limit:`):
`None` and `0` are falsy. -/
def truthyInt : Option Int → Bool
  | none => false
  | some n => n != 0

/-- `repr` of a Python list of strings, as interpolated by the f-string in the
error message of `_build_query`. -/
def pyListRepr (l : List String) : String :=
  "[" ++ String.intercalate ", " (l.map (fun s => "'" ++ s ++ "'")) ++ "]"

/-- The product-type branch of `_build_query` (copernicus_api.py lines
175-180): validates membership in `prod_types` and yields the `contains`
clause, or raises `ValueError` whose message embeds `self.prod_types`. -/
def prod_type_clause (api : MissionAPI) (prod_type : Option String) :
    Except String String :=
  if truthyStr prod_type then
    if api.prod_types.contains (prod_type.getD "") then
      Except.ok (" and contains(Name, '" ++ prod_type.getD "" ++ "')")
    else
      Except.error ("Product type not found. Must be one from the list: "
        ++ pyListRepr api.prod_types)
  else Except.ok ""

/-- The `exclude` branch of `_build_query` (lines 181-182). -/
def exclude_clause (exclude : Option String) : String :=
  if truthyStr exclude then
    " and not contains(Name,'" ++ exclude.getD "" ++ "')"
  else ""

/-- The `footprint` branch of `_build_query` (lines 183-184). -/
def footprint_clause (footprint : Option String) : String :=
  if truthyStr footprint then
    " and OData.CSC.Intersects(area=geography'SRID=4326;" ++ footprint.getD "" ++ "')"
  else ""

/-- The `orderby` branch of `_build_query` (lines 185-186). -/
def orderby_clause (orderby : Option String) : String :=
  if truthyStr orderby then "&$orderby=ContentDate/Start " ++ orderby.getD ""
  else ""

/-- The `limit` branch of `_build_query` (lines 187-188). -/
def limit_clause (limit : Option Int) : String :=
  if truthyInt limit then "&$top=" ++ toString (limit.getD 0) else ""

/-- `CopernicusDataspaceAPI._build_query` (copernicus_api.py lines 155-190):
the base predicate with the two date bounds, then the optional clauses in
source order, then the unconditional `&$expand=Attributes` suffix. The
`ValueError` raised for an unknown product type becomes `Except.error`. -/
def build_query (api : MissionAPI) (start_time end_time : String)
    (prod_type exclude footprint orderby : Option String) (limit : Option Int) :
    Except String String :=
  match prod_type_clause api prod_type with
  | Except.error e => Except.error e
  | Except.ok pc =>
      Except.ok (CATALOG_URL ++ "/Name eq '" ++ api.mission ++ "'"
        ++ " and ContentDate/Start gt " ++ start_time ++ "T00:00:00.000Z"
        ++ " and ContentDate/Start lt " ++ end_time ++ "T00:00:00.000Z"
        ++ pc ++ exclude_clause exclude ++ footprint_clause footprint
        ++ orderby_clause orderby ++ limit_clause limit
        ++ "&$expand=Attributes")

/-- Whether `pat` occurs as a prefix of `l`. -/
def listStartsWith : List Char → List Char → Bool
  | _, [] => true
  | [], _ :: _ => false
  | c :: cs, p :: ps => c == p && listStartsWith cs ps

/-- Whether `pat` occurs as a contiguous sublist of `l`. -/
def listHasSub (l pat : List Char) : Bool :=
  match l with
  | [] => pat.isEmpty
  | _ :: cs => listStartsWith l pat || listHasSub cs pat

/-- Whether `pat` occurs as a substring of `s`. -/
def strHasSub (s pat : String) : Bool :=
  listHasSub s.data pat.data

/-- A cell value of the products DataFrame: pandas holds numbers (modelled
exactly as rationals) or strings in the object-typed attribute columns. -/
inductive Value
  | num (q : Rat)
  | str (s : String)
deriving DecidableEq

/-- One row of the products DataFrame: column name to value. A column the
row does not list is the row's NaN in that column. -/
def Row := List (String × Value)

instance : DecidableEq Row := by
  unfold Row
  infer_instance

/-- The products DataFrame: the rows in order. -/
def DataFrame := List Row

instance : DecidableEq DataFrame := by
  unfold DataFrame
  infer_instance

/-- Whether the DataFrame has a column named `k`: pandas materialises a column
when at least one row carries the field, so `prod_df[k]` raises `KeyError`
exactly when no row has it. -/
def hasColumn (df : DataFrame) (k : String) : Bool :=
  df.any (fun r => ((r : List (String × Value)).lookup k).isSome)

/-- The Python exceptions that reach a caller of this module
(exceptions.py, plus raw exceptions the code does not catch). -/
inductive PyErr
  | tokenGenerationError (msg : String)
  | queryError (msg : String)
  | attributeNotFoundError (msg : String)
  | valueError (msg : String)
  | uncaught (kind : String)
deriving DecidableEq

/-- The message `AttributeNotFoundError` builds from the wrapped `KeyError`
(exceptions.py lines 2-8): `KeyError.args[0]` is the missing column name. -/
def attrNotFoundMsg (k : String) : String :=
  "'" ++ k ++ "' is not found in the product attributes."

/-- Elementwise `>= min` and `<= max` of the `cloudCover` column against the
given bounds, for one row (copernicus_api.py lines 346-349). A row missing
the column holds NaN there, and NaN compares false; comparing a string cell
or a string bound against a number raises `TypeError` (uncaught). -/
def cloud_row_keep (r : Row) (lo hi : Value) : Except PyErr Bool :=
  match (r : List (String × Value)).lookup "cloudCover" with
  | none => Except.ok false
  | some (Value.num q) =>
      match lo, hi with
      | Value.num a, Value.num b => Except.ok (decide (a ≤ q) && decide (q ≤ b))
      | _, _ => Except.error (PyErr.uncaught "TypeError")
  | some (Value.str _) => Except.error (PyErr.uncaught "TypeError")

/-- Boolean-mask row selection: keep the rows the predicate accepts, in
order, propagating the first raised comparison error. -/
def selectRows (p : Row → Except PyErr Bool) : DataFrame → Except PyErr DataFrame
  | [] => Except.ok []
  | r :: rs =>
      match p r with
      | Except.error e => Except.error e
      | Except.ok b =>
          match selectRows p rs with
          | Except.error e => Except.error e
          | Except.ok rest => Except.ok (if b then r :: rest else rest)

/-- `filter_by_cloud_cover` (copernicus_api.py lines 326-351): select rows
with `cloudCover` within the bounds; the `KeyError` of a missing column is
wrapped into `AttributeNotFoundError`. -/
def filter_by_cloud_cover (prod_df : DataFrame) (min_cover max_cover : Value) :
    Except PyErr DataFrame :=
  if hasColumn prod_df "cloudCover" then
    selectRows (fun r => cloud_row_keep r min_cover max_cover) prod_df
  else
    Except.error (PyErr.attributeNotFoundError (attrNotFoundMsg "cloudCover"))

/-- `_filter_by_attrs` (copernicus_api.py lines 354-376): keep the rows whose
value in the column `attribute` is in `values` (`Series.isin`; a row's NaN is
never in the list), wrapping a missing column's `KeyError` into
`AttributeNotFoundError`. -/
def _filter_by_attrs (prod_df : DataFrame) (attr_name : String)
    (values : List Value) : Except PyErr DataFrame :=
  if hasColumn prod_df attr_name then
    Except.ok (prod_df.filter (fun r =>
      match (r : List (String × Value)).lookup attr_name with
      | some v => values.contains v
      | none => false))
  else
    Except.error (PyErr.attributeNotFoundError (attrNotFoundMsg attr_name))

/-- `repr` of the Python list interpolated into the `ValueError` message of
`filter_by_attributes`. -/
def pyListReprV (l : List Value) : String :=
  "[" ++ String.intercalate ", " (l.map (fun v =>
    match v with
    | Value.num q => toString q
    | Value.str s => "'" ++ s ++ "'")) ++ "]"

/-- `filter_by_attributes` (copernicus_api.py lines 379-402): fold the keyword
filters over the DataFrame in order. The reserved key applies the cloud-cover
range after asserting the value list has exactly two elements (the failed
assertion is re-raised as `ValueError`); every other key applies the
membership filter. -/
def filter_by_attributes (prod_df : DataFrame)
    (kwargs : List (String × List Value)) : Except PyErr DataFrame :=
  match kwargs with
  | [] => Except.ok prod_df
  | (key, val) :: rest =>
      if key == "cloudCover" then
        match val with
        | [lo, hi] =>
            match filter_by_cloud_cover prod_df lo hi with
            | Except.error e => Except.error e
            | Except.ok df2 => filter_by_attributes df2 rest
        | _ =>
            Except.error (PyErr.valueError
              ("Values for 'cloudCover' must be a list of 2 elements [min, max], "
                ++ pyListReprV val ++ " was given"))
      else
        match _filter_by_attrs prod_df key val with
        | Except.error e => Except.error e
        | Except.ok df2 => filter_by_attributes df2 rest

/-- The body the token endpoint answered with, as far as the code inspects
it: not JSON at all, or a JSON object given by its string fields. -/
inductive TokenBody
  | notJson
  | json (fields : List (String × String))

/-- An HTTP response as `requests` hands it to the code. -/
structure HttpResponse where
  status : Nat
  body : TokenBody

/-- Outcome of the POST to the token endpoint: the request itself failed, or
a response arrived. -/
inductive HttpResult
  | transportError (msg : String)
  | response (r : HttpResponse)

/-- `Response.raise_for_status`: raises `HTTPError` exactly for 4xx and 5xx
status codes. -/
def raise_for_status (r : HttpResponse) : Option String :=
  if 400 ≤ r.status ∧ r.status < 600 then
    some ("HTTPError: " ++ toString r.status)
  else none

/-- The message `_get_access_token` wraps around the caught exception
(copernicus_api.py lines 72-75). -/
def tokenErrMsg (cause : String) : String :=
  "Access token creation failed. Error: " ++ cause ++ " \n"
    ++ "\tMake sure your login credentials are correct for"
    ++ " https://dataspace.copernicus.eu/"

/-- `CopernicusDataspaceAPI._get_access_token` (copernicus_api.py lines
61-76). The `try` block covers only the POST and `raise_for_status`; the
body access `r.json()["access_token"]` sits outside it, so a malformed body
escapes as the raw `JSONDecodeError` / `KeyError`. -/
def get_access_token (h : HttpResult) : Except PyErr String :=
  match h with
  | HttpResult.transportError msg =>
      Except.error (PyErr.tokenGenerationError (tokenErrMsg msg))
  | HttpResult.response r =>
      match raise_for_status r with
      | some e => Except.error (PyErr.tokenGenerationError (tokenErrMsg e))
      | none =>
          match r.body with
          | TokenBody.notJson => Except.error (PyErr.uncaught "JSONDecodeError")
          | TokenBody.json fields =>
              match fields.lookup "access_token" with
              | some tok => Except.ok tok
              | none => Except.error (PyErr.uncaught "KeyError")

/-- A raw product record of the catalog response: its base fields and its
`Attributes` array of Name/Value pairs. -/
structure RawProduct where
  fields : List (String × Value)
  attributes : List (String × Value)

/-- Set (or overwrite) one field of a row, as item assignment on a pandas
Series does. -/
def setField (row : List (String × Value)) (k : String) (v : Value) :
    List (String × Value) :=
  if (row.lookup k).isSome then
    row.map (fun p => if p.1 == k then (k, v) else p)
  else row ++ [(k, v)]

/-- `CopernicusDataspaceAPI.__add_attrs_to_df` (copernicus_api.py lines
78-84): fold the `Attributes` list into the row, a later duplicate name
overwriting an earlier value. -/
def add_attrs_to_df (p : RawProduct) : Row :=
  (p.attributes.foldl (fun r a => setField r a.1 a.2) p.fields : List (String × Value))

/-- The body the catalog endpoint answered with, as far as `query` inspects
it: not JSON, or a JSON object whose `value` key is absent or holds the
product array. -/
inductive QueryBody
  | notJson
  | json (value : Option (List RawProduct))

/-- Outcome of the GET against the catalog endpoint. -/
inductive QueryHttp
  | transportError (cls : String) (msg : String)
  | response (body : QueryBody)

/-- `CopernicusDataspaceAPI.query` (copernicus_api.py lines 86-153) after the
query string is built. The `try` block covers the GET and `.json()`; the
subscript `json['value']` sits outside it, so a JSON payload without the
`value` key escapes as a raw `KeyError`. The rows are attribute-expanded and
the keyword filters applied. -/
def query (h : QueryHttp) (kwargs : List (String × List Value)) :
    Except PyErr DataFrame :=
  match h with
  | QueryHttp.transportError cls msg =>
      Except.error (PyErr.queryError (cls ++ ": Query failed: " ++ msg))
  | QueryHttp.response QueryBody.notJson =>
      Except.error (PyErr.queryError
        "JSONDecodeError: Query failed: Expecting value")
  | QueryHttp.response (QueryBody.json none) =>
      Except.error (PyErr.uncaught "KeyError")
  | QueryHttp.response (QueryBody.json (some raws)) =>
      match kwargs with
      | [] => Except.ok (raws.map add_attrs_to_df)
      | _ => filter_by_attributes (raws.map add_attrs_to_df) kwargs

/-- A product handed to the download orchestrator: the `Id` and `Name`
columns of its DataFrame row. -/
structure Product where
  Id : String
  Name : String

/-- The world the download batch runs against: the token endpoint's fixed
behaviour, which product GETs succeed, and the machine's CPU count. -/
structure World where
  token_http : HttpResult
  download_ok : String → Bool
  cpu_count : Nat

/-- The message of a Python exception, as interpolated by `str(e)`. -/
def pyErrMsg : PyErr → String
  | PyErr.tokenGenerationError m => m
  | PyErr.queryError m => m
  | PyErr.attributeNotFoundError m => m
  | PyErr.valueError m => m
  | PyErr.uncaught k => k

/-- The observable effects of one submitted download task: token-endpoint
requests issued, progress-bar ticks, files written, and the exception the
task raised (captured by its `Future` object), if any. -/
structure TaskEffects where
  tokenFetches : Nat
  pbarTicks : Nat
  filesWritten : List String
  raised : Option String
deriving DecidableEq

/-- `CopernicusDataspaceAPI.download_by_id` (copernicus_api.py lines
192-214): fetches a fresh access token for this one call, then streams the
product to `out_path + ".zip"`. A failed token fetch or a failed GET raises;
a successful GET writes the file. -/
def download_by_id (w : World) (uid : String) (out_path : String) : TaskEffects :=
  match get_access_token w.token_http with
  | Except.error e =>
      { tokenFetches := 1, pbarTicks := 0, filesWritten := []
      , raised := some (pyErrMsg e) }
  | Except.ok _tok =>
      if w.download_ok uid then
        { tokenFetches := 1, pbarTicks := 0
        , filesWritten := [out_path ++ ".zip"], raised := none }
      else
        { tokenFetches := 1, pbarTicks := 0, filesWritten := []
        , raised := some "ConnectionError" }

/-- `download_worker` inside `download_all` (copernicus_api.py lines
242-251): runs `download_by_id`, re-raises any failure wrapped with the
product name, and in its `finally` block ticks the progress bar once when
enabled — on success and on failure alike. -/
def download_worker (w : World) (out_dir : String) (show_progress : Bool)
    (p : Product) : TaskEffects :=
  let d := download_by_id w p.Id (out_dir ++ "/" ++ p.Name)
  { d with
    pbarTicks := if show_progress then 1 else 0
  , raised := d.raised.map
      (fun m => "Failed to download " ++ p.Name ++ ": " ++ m) }

/-- The exception a task raised, as the zero- or one-element list of captured
errors it contributes to the batch. -/
def optToList : Option String → List String
  | some m => [m]
  | none => []

/-- The aggregate effects of a download batch. `capturedErrors` are the
exceptions raised inside workers: each sits in the `Future` object
`executor.submit` returned, which `download_all` drops, so they are never
re-raised to the caller. -/
structure BatchEffects where
  tokenFetches : Nat
  pbarUpdates : Nat
  filesWritten : List String
  capturedErrors : List String
deriving DecidableEq

/-- Run every submitted task and combine the effects. The pool is
sequentialised task by task; the aggregate counts proved below do not depend
on interleaving, and no task's outcome feeds into another's. -/
def run_batch (w : World) (out_dir : String) (show_progress : Bool) :
    List Product → BatchEffects
  | [] =>
      { tokenFetches := 0, pbarUpdates := 0
      , filesWritten := [], capturedErrors := [] }
  | p :: ps =>
      let t := download_worker w out_dir show_progress p
      let rest := run_batch w out_dir show_progress ps
      { tokenFetches := t.tokenFetches + rest.tokenFetches
      , pbarUpdates := t.pbarTicks + rest.pbarUpdates
      , filesWritten := t.filesWritten ++ rest.filesWritten
      , capturedErrors := optToList t.raised ++ rest.capturedErrors }

/-- The pool size computed on copernicus_api.py line 253: the caller's value
when truthy, else `min(cpu_count() - 2, len(products))`. -/
def effective_threads (threads : Nat) (cpu n : Nat) : Nat :=
  if threads ≠ 0 then threads else min (cpu - 2) n

/-- `CopernicusDataspaceAPI.download_all` (copernicus_api.py lines 216-259).
`ThreadPoolExecutor` refuses a non-positive worker count (`ValueError`),
else every task is submitted and run, the futures are dropped, and the
function returns `None` (modelled `Unit`) to the caller. The first component
is the batch's observable side effects; the second is the caller-visible
return value. -/
def download_all (w : World) (products : List Product) (out_dir : String)
    (threads : Nat) (show_progress : Bool) :
    Except String (BatchEffects × Unit) :=
  if effective_threads threads w.cpu_count products.length = 0 then
    Except.error "ValueError: max_workers must be greater than 0"
  else
    Except.ok (run_batch w out_dir show_progress products, ())

/-- Whether every present `cloudCover`-like cell of the column `k` is numeric
(a string cell would make pandas raise `TypeError` on the range comparison;
the theorems below about the cloud-cover filter assume a numeric column). -/
def numericColumn (df : DataFrame) (k : String) : Bool :=
  df.all (fun r =>
    match (r : List (String × Value)).lookup k with
    | some (Value.str _) => false
    | _ => true)

/-- The pure row predicate the cloud-cover range filter computes on a numeric
column: the row's `cloudCover` lies within `[lo, hi]`, both ends inclusive; a
row without the column is dropped. -/
def cloud_in_range (lo hi : Rat) (r : Row) : Bool :=
  match (r : List (String × Value)).lookup "cloudCover" with
  | some (Value.num q) => decide (lo ≤ q) && decide (q ≤ hi)
  | _ => false

/-- Whether a token-endpoint outcome is a raised `TokenGenerationError`. -/
def isTokenGenErrorS : Except PyErr String → Bool
  | Except.error (PyErr.tokenGenerationError _) => true
  | _ => false

/-- Whether a catalog-query outcome is a raised `QueryError`. -/
def isQueryErrorDF : Except PyErr DataFrame → Bool
  | Except.error (PyErr.queryError _) => true
  | _ => false

/-- A token endpoint that answers 200 with a well-formed body. -/
def tokOk : HttpResult :=
  HttpResult.response { status := 200, body := TokenBody.json [("access_token", "tok")] }

/-- A world where every download succeeds. -/
def wOk : World :=
  { token_http := tokOk, download_ok := fun _ => true, cpu_count := 8 }

/-- A world where the download of product id "b" fails and every other one
succeeds. -/
def wFail : World :=
  { token_http := tokOk, download_ok := fun uid => uid != "b", cpu_count := 8 }

/-- The two-product batch of the spec's testable property: ids "a"/"b" with
names "P1"/"P2". -/
def prods2 : List Product :=
  [{ Id := "a", Name := "P1" }, { Id := "b", Name := "P2" }]

/-- A three-product optical collection with cloud cover 10, 50 and 95. -/
def dfCloud : DataFrame :=
  [([("Id", Value.str "a"), ("cloudCover", Value.num 10)] : List (String × Value)),
   ([("Id", Value.str "b"), ("cloudCover", Value.num 50)] : List (String × Value)),
   ([("Id", Value.str "c"), ("cloudCover", Value.num 95)] : List (String × Value))]

end Copernicus

namespace Copernicus

/-- Decomposition of every successfully built query string into the exact
concatenation of its clauses, in the order `_build_query` appends them:
the base mission predicate, one date lower bound, one date upper bound,
then the optional product-type, exclude, footprint, orderby and limit
clauses, then the attribute-expansion suffix. Shared helper. -/
theorem build_query_decomp (api : MissionAPI) (st et : String)
    (pt ex fp ob : Option String) (lim : Option Int) (q : String)
    (h : build_query api st et pt ex fp ob lim = Except.ok q) :
    ∃ pc, prod_type_clause api pt = Except.ok pc ∧
      q = CATALOG_URL ++ "/Name eq '" ++ api.mission ++ "'"
        ++ " and ContentDate/Start gt " ++ st ++ "T00:00:00.000Z"
        ++ " and ContentDate/Start lt " ++ et ++ "T00:00:00.000Z"
        ++ pc ++ exclude_clause ex ++ footprint_clause fp
        ++ orderby_clause ob ++ limit_clause lim
        ++ "&$expand=Attributes" := by
  cases hpc : prod_type_clause api pt with
  | error e => simp [build_query, hpc] at h
  | ok pc =>
      simp only [build_query, hpc] at h
      injection h with h
      exact ⟨pc, rfl, h.symm⟩

/-- C4: every string `_build_query` returns starts from the base predicate
on the mission name, contains exactly one date lower-bound segment
(`gt start_time`) and exactly one date upper-bound segment (`lt end_time`)
in that fixed order, appends the optional clauses in the fixed order
product type, exclude, footprint, orderby, limit, and always ends with the
attribute-expansion directive. Stated structurally: the returned string is
exactly this concatenation, with each optional clause empty when its
argument is falsy. -/
theorem build_query_clause_structure (api : MissionAPI) (st et : String)
    (pt ex fp ob : Option String) (lim : Option Int) (q : String)
    (h : build_query api st et pt ex fp ob lim = Except.ok q) :
    ∃ pc, prod_type_clause api pt = Except.ok pc ∧
      q = CATALOG_URL ++ "/Name eq '" ++ api.mission ++ "'"
        ++ " and ContentDate/Start gt " ++ st ++ "T00:00:00.000Z"
        ++ " and ContentDate/Start lt " ++ et ++ "T00:00:00.000Z"
        ++ pc ++ exclude_clause ex ++ footprint_clause fp
        ++ orderby_clause ob ++ limit_clause lim
        ++ "&$expand=Attributes" ∧
      ∃ p, q = p ++ "&$expand=Attributes" := by
  obtain ⟨pc, hpc, hq⟩ := build_query_decomp api st et pt ex fp ob lim q h
  exact ⟨pc, hpc, hq, _, hq⟩

/-- Witness for C4 at the spec's round-trip example: SENTINEL-2, the given
date range and product type L2A. -/
theorem build_query_clause_structure_witness :
    ∃ q, build_query Sentinel2API "2023-01-01" "2023-01-15"
        (some "L2A") none none none none = Except.ok q ∧
      ∃ pc, prod_type_clause Sentinel2API (some "L2A") = Except.ok pc ∧
        q = CATALOG_URL ++ "/Name eq '" ++ Sentinel2API.mission ++ "'"
          ++ " and ContentDate/Start gt " ++ "2023-01-01" ++ "T00:00:00.000Z"
          ++ " and ContentDate/Start lt " ++ "2023-01-15" ++ "T00:00:00.000Z"
          ++ pc ++ exclude_clause none ++ footprint_clause none
          ++ orderby_clause none ++ limit_clause none
          ++ "&$expand=Attributes" ∧
        ∃ p, q = p ++ "&$expand=Attributes" :=
  ⟨_, rfl, build_query_clause_structure Sentinel2API "2023-01-01" "2023-01-15"
    (some "L2A") none none none none _ rfl⟩

/-- C9: the mission catalog identifier of the Sentinel-6 client is the
string "SENTINEL-3", identical to the Sentinel-3 client's, so every query
the Sentinel-6 client builds starts with the base predicate
`Name eq 'SENTINEL-3'` and never filters on SENTINEL-6. -/
theorem sentinel6_queries_sentinel3_catalog :
    Sentinel6API.mission = "SENTINEL-3" ∧
    Sentinel6API.mission = Sentinel3API.mission ∧
    ∀ (st et : String) (pt ex fp ob : Option String) (lim : Option Int) (q : String),
      build_query Sentinel6API st et pt ex fp ob lim = Except.ok q →
      ∃ rest, q = CATALOG_URL ++ "/Name eq 'SENTINEL-3'" ++ rest := by
  refine ⟨rfl, rfl, ?_⟩
  intro st et pt ex fp ob lim q h
  obtain ⟨pc, _, hq⟩ := build_query_decomp Sentinel6API st et pt ex fp ob lim q h
  exact ⟨" and ContentDate/Start gt " ++ st ++ "T00:00:00.000Z"
        ++ " and ContentDate/Start lt " ++ et ++ "T00:00:00.000Z"
        ++ pc ++ exclude_clause ex ++ footprint_clause fp
        ++ orderby_clause ob ++ limit_clause lim
        ++ "&$expand=Attributes", by
    rw [hq]
    simp only [Sentinel6API, String.append_assoc]
    congr 1⟩

/-- Witness for C9 at a concrete Sentinel-6 query. -/
theorem sentinel6_queries_sentinel3_catalog_witness :
    ∃ q, build_query Sentinel6API "2023-01-01" "2023-01-15" none none none none none
        = Except.ok q ∧
      ∃ rest, q = CATALOG_URL ++ "/Name eq 'SENTINEL-3'" ++ rest :=
  ⟨_, rfl, sentinel6_queries_sentinel3_catalog.2.2 "2023-01-01" "2023-01-15"
    none none none none none _ rfl⟩

/-- C3 as amended: an unknown product type is rejected at query-build time
with an error whose message carries the mission's valid set (but, per the
counterexample, not the rejected value), and a query built with no product
type contains no product-type clause at all. -/
theorem invalid_prod_type_error_carries_valid_set (api : MissionAPI)
    (st et : String) (pt ex fp ob : Option String) (lim : Option Int)
    (h1 : truthyStr pt = true)
    (h2 : api.prod_types.contains (pt.getD "") = false) :
    build_query api st et pt ex fp ob lim =
      Except.error ("Product type not found. Must be one from the list: "
        ++ pyListRepr api.prod_types) ∧
    build_query api st et none ex fp ob lim =
      Except.ok (CATALOG_URL ++ "/Name eq '" ++ api.mission ++ "'"
        ++ " and ContentDate/Start gt " ++ st ++ "T00:00:00.000Z"
        ++ " and ContentDate/Start lt " ++ et ++ "T00:00:00.000Z"
        ++ exclude_clause ex ++ footprint_clause fp
        ++ orderby_clause ob ++ limit_clause lim
        ++ "&$expand=Attributes") := by
  have h2m : pt.getD "" ∉ api.prod_types := by simpa using h2
  constructor
  · simp [build_query, prod_type_clause, h1, h2m]
  · simp [build_query, prod_type_clause, truthyStr]

/-- Witness for C3 as amended: Sentinel-1 rejects the product type XYZ. -/
theorem invalid_prod_type_error_carries_valid_set_witness :
    truthyStr (some "XYZ") = true ∧
    Sentinel1API.prod_types.contains ((some "XYZ").getD "") = false ∧
    build_query Sentinel1API "2020-01-01" "2020-02-01" (some "XYZ") none none none none =
      Except.error ("Product type not found. Must be one from the list: "
        ++ pyListRepr Sentinel1API.prod_types) :=
  ⟨rfl, by decide,
   (invalid_prod_type_error_carries_valid_set Sentinel1API "2020-01-01" "2020-02-01"
     (some "XYZ") none none none none rfl (by decide)).1⟩

/-- Counterexample to C3 as stated: rejecting the product type BOGUS on the
Sentinel-2 client raises an error whose message carries the valid set but
does not contain the rejected value BOGUS anywhere. -/
theorem invalid_prod_type_error_lacks_rejected_value :
    build_query Sentinel2API "2023-01-01" "2023-01-15" (some "BOGUS") none none none none =
      Except.error "Product type not found. Must be one from the list: ['L1C', 'L2A']" ∧
    strHasSub "Product type not found. Must be one from the list: ['L1C', 'L2A']" "BOGUS"
      = false ∧
    strHasSub "Product type not found. Must be one from the list: ['L1C', 'L2A']"
      "['L1C', 'L2A']" = true :=
  ⟨rfl, by decide, by decide⟩

/-- C10: the empty string passed as `prod_type` (and as `exclude`) is falsy,
so `_build_query` treats it exactly like an absent value: no membership
validation against `prod_types` runs, no error is raised although the empty
string is in no mission's valid set, no contains clause is appended, and
the built query equals the one built from `None`. -/
theorem empty_prod_type_treated_absent (api : MissionAPI) (st et : String)
    (fp ob : Option String) (lim : Option Int) :
    prod_type_clause api (some "") = Except.ok "" ∧
    exclude_clause (some "") = "" ∧
    build_query api st et (some "") (some "") fp ob lim =
      build_query api st et none none fp ob lim ∧
    (∃ q, build_query api st et (some "") (some "") fp ob lim = Except.ok q) :=
  ⟨rfl, rfl, rfl, ⟨_, rfl⟩⟩

/-- Instance of C10 at a concrete client and date range. -/
theorem empty_prod_type_treated_absent_witness :
    prod_type_clause Sentinel3API (some "") = Except.ok "" ∧
    exclude_clause (some "") = "" ∧
    build_query Sentinel3API "2022-05-01" "2022-06-01" (some "") (some "") none none none =
      build_query Sentinel3API "2022-05-01" "2022-06-01" none none none none none ∧
    (∃ q, build_query Sentinel3API "2022-05-01" "2022-06-01" (some "") (some "")
      none none none = Except.ok q) :=
  empty_prod_type_treated_absent Sentinel3API "2022-05-01" "2022-06-01" none none none

end Copernicus

namespace Copernicus

/-- C5 as amended: `_get_access_token` wraps a transport failure and every
4xx or 5xx status (the statuses `raise_for_status` raises for) into
`TokenGenerationError` carrying the cause; on every other status the body
access runs outside the try block, so a non-JSON body or a body without the
`access_token` key escapes as the raw uncaught error instead of a
`TokenGenerationError`. -/
theorem get_access_token_error_wrapping :
    (∀ msg, get_access_token (HttpResult.transportError msg) =
       Except.error (PyErr.tokenGenerationError (tokenErrMsg msg))) ∧
    (∀ r : HttpResponse, 400 ≤ r.status → r.status < 600 →
       get_access_token (HttpResult.response r) =
         Except.error (PyErr.tokenGenerationError
           (tokenErrMsg ("HTTPError: " ++ toString r.status)))) ∧
    (∀ r : HttpResponse, r.status < 400 ∨ 600 ≤ r.status →
       get_access_token (HttpResult.response r) =
         match r.body with
         | TokenBody.notJson => Except.error (PyErr.uncaught "JSONDecodeError")
         | TokenBody.json fields =>
             match fields.lookup "access_token" with
             | some tok => Except.ok tok
             | none => Except.error (PyErr.uncaught "KeyError")) := by
  refine ⟨fun msg => rfl, ?_, ?_⟩
  · intro r h1 h2
    simp [get_access_token, raise_for_status, h1, h2]
  · intro r h
    have hrs : raise_for_status r = none := by
      unfold raise_for_status
      rw [if_neg]
      rcases h with h | h
      · exact fun hc => absurd hc.1 (by omega)
      · exact fun hc => absurd hc.2 (by omega)
    simp only [get_access_token, hrs]

/-- Witness for C5 as amended: a connection error and a 401 are both
wrapped into `TokenGenerationError`. -/
theorem get_access_token_error_wrapping_witness :
    get_access_token (HttpResult.transportError "ConnectionError") =
      Except.error (PyErr.tokenGenerationError (tokenErrMsg "ConnectionError")) ∧
    (400 ≤ 401 ∧ 401 < 600) ∧
    get_access_token (HttpResult.response { status := 401, body := TokenBody.notJson }) =
      Except.error (PyErr.tokenGenerationError (tokenErrMsg "HTTPError: 401")) :=
  ⟨get_access_token_error_wrapping.1 "ConnectionError", ⟨by decide, by decide⟩,
   get_access_token_error_wrapping.2.1 { status := 401, body := TokenBody.notJson }
     (by decide) (by decide)⟩

/-- Counterexample to C5 as stated: a 200 response whose JSON body lacks the
`access_token` key makes `_get_access_token` raise an uncaught `KeyError`,
not a `TokenGenerationError`; a 200 non-JSON body likewise escapes as the
raw decoding error. -/
theorem get_access_token_malformed_body_unwrapped :
    get_access_token (HttpResult.response
      { status := 200, body := TokenBody.json [("token_type", "Bearer")] }) =
      Except.error (PyErr.uncaught "KeyError") ∧
    isTokenGenErrorS (get_access_token (HttpResult.response
      { status := 200, body := TokenBody.json [("token_type", "Bearer")] })) = false ∧
    get_access_token (HttpResult.response { status := 200, body := TokenBody.notJson }) =
      Except.error (PyErr.uncaught "JSONDecodeError") :=
  ⟨rfl, rfl, rfl⟩

/-- C6 as amended: `query` wraps a transport failure and a non-JSON body
into `QueryError` carrying the cause; the subscript `json['value']` runs
outside the try block, so a JSON payload without the `value` array escapes
as an uncaught `KeyError`; and a product collection is returned only when a
well-formed payload arrived — on every failure no partial collection is
produced. -/
theorem query_error_wrapping :
    (∀ cls msg kwargs, query (QueryHttp.transportError cls msg) kwargs =
       Except.error (PyErr.queryError (cls ++ ": Query failed: " ++ msg))) ∧
    (∀ kwargs, query (QueryHttp.response QueryBody.notJson) kwargs =
       Except.error (PyErr.queryError "JSONDecodeError: Query failed: Expecting value")) ∧
    (∀ kwargs, query (QueryHttp.response (QueryBody.json none)) kwargs =
       Except.error (PyErr.uncaught "KeyError")) ∧
    (∀ (h : QueryHttp) (kwargs : List (String × List Value)) (df : DataFrame),
       query h kwargs = Except.ok df →
       ∃ raws, h = QueryHttp.response (QueryBody.json (some raws))) := by
  refine ⟨fun cls msg kwargs => rfl, fun kwargs => rfl, fun kwargs => rfl, ?_⟩
  intro h kwargs df hq
  cases h with
  | transportError cls msg => simp [query] at hq
  | response body =>
      cases body with
      | notJson => simp [query] at hq
      | json v =>
          cases v with
          | none => simp [query] at hq
          | some raws => exact ⟨raws, rfl⟩

/-- Witness for C6 as amended: a timed-out GET is wrapped into `QueryError`,
and a well-formed empty payload yields a collection. -/
theorem query_error_wrapping_witness :
    query (QueryHttp.transportError "ConnectionError" "timed out") [] =
      Except.error (PyErr.queryError "ConnectionError: Query failed: timed out") ∧
    ∃ raws, QueryHttp.response (QueryBody.json (some [])) =
      QueryHttp.response (QueryBody.json (some raws)) :=
  ⟨query_error_wrapping.1 "ConnectionError" "timed out" [],
   query_error_wrapping.2.2.2 (QueryHttp.response (QueryBody.json (some []))) [] [] rfl⟩

/-- Counterexample to C6 as stated: a JSON payload lacking the product array
(`value` key) makes `query` raise an uncaught `KeyError`, not a
`QueryError`. -/
theorem query_missing_value_key_unwrapped :
    query (QueryHttp.response (QueryBody.json none)) [] =
      Except.error (PyErr.uncaught "KeyError") ∧
    isQueryErrorDF (query (QueryHttp.response (QueryBody.json none)) []) = false :=
  ⟨rfl, rfl⟩

/-- On a row whose `cloudCover` cell is not a string, the cloud-cover mask
evaluates to the pure in-range predicate. Shared helper. -/
theorem cloud_row_keep_numeric (lo hi : Rat) (r : Row)
    (h1 : (match (r : List (String × Value)).lookup "cloudCover" with
           | some (Value.str _) => false
           | _ => true) = true) :
    cloud_row_keep r (Value.num lo) (Value.num hi) =
      Except.ok (cloud_in_range lo hi r) := by
  cases hl : (r : List (String × Value)).lookup "cloudCover" with
  | none => simp [cloud_row_keep, cloud_in_range, hl]
  | some v =>
      cases v with
      | num q => simp [cloud_row_keep, cloud_in_range, hl]
      | str s => rw [hl] at h1; simp at h1

/-- On a numerically-typed `cloudCover` column the mask selection is the
pure list filter by the in-range predicate. Shared helper. -/
theorem selectRows_cloud_numeric (lo hi : Rat) (df : DataFrame)
    (h : numericColumn df "cloudCover" = true) :
    selectRows (fun r => cloud_row_keep r (Value.num lo) (Value.num hi)) df =
      Except.ok (List.filter (cloud_in_range lo hi) df) := by
  induction df with
  | nil => rfl
  | cons r rs ih =>
      simp only [numericColumn, List.all_cons, Bool.and_eq_true] at h
      obtain ⟨h1, h2⟩ := h
      have ih2 := ih (by simpa [numericColumn] using h2)
      have hck := cloud_row_keep_numeric lo hi r h1
      simp only [selectRows, hck, ih2, List.filter_cons]

/-- C7: on a collection with a numeric `cloudCover` column, a cloud-cover
filter whose value is a 2-element [min, max] range keeps exactly the rows
whose `cloudCover` lies within the range, inclusive on both ends; a value
list of any other length raises the invalid-filter-value error
(`ValueError` in the source). -/
theorem cloud_cover_range_filter :
    (∀ (df : DataFrame) (lo hi : Rat),
       hasColumn df "cloudCover" = true →
       numericColumn df "cloudCover" = true →
       filter_by_attributes df [("cloudCover", [Value.num lo, Value.num hi])] =
         Except.ok (List.filter (cloud_in_range lo hi) df)) ∧
    (∀ (df : DataFrame) (val : List Value), val.length ≠ 2 →
       filter_by_attributes df [("cloudCover", val)] =
         Except.error (PyErr.valueError
           ("Values for 'cloudCover' must be a list of 2 elements [min, max], "
             ++ pyListReprV val ++ " was given"))) := by
  constructor
  · intro df lo hi hcol hnum
    simp [filter_by_attributes, filter_by_cloud_cover, hcol,
      selectRows_cloud_numeric lo hi df hnum]
  · intro df val hlen
    cases val with
    | nil => rfl
    | cons a t =>
        cases t with
        | nil => rfl
        | cons b t2 =>
            cases t2 with
            | nil => exact absurd rfl hlen
            | cons c t3 => rfl

/-- Witness for C7: on the concrete collection with cloud cover 10, 50, 95,
the range [20, 95] keeps rows 50 and 95 (upper end inclusive), and the
1-element range raises the invalid-filter-value error. -/
theorem cloud_cover_range_filter_witness :
    hasColumn dfCloud "cloudCover" = true ∧
    numericColumn dfCloud "cloudCover" = true ∧
    filter_by_attributes dfCloud [("cloudCover", [Value.num 20, Value.num 95])] =
      Except.ok (List.filter (cloud_in_range 20 95) dfCloud) ∧
    (1 : Nat) ≠ 2 ∧
    filter_by_attributes dfCloud [("cloudCover", [Value.num 20])] =
      Except.error (PyErr.valueError
        ("Values for 'cloudCover' must be a list of 2 elements [min, max], "
          ++ pyListReprV [Value.num 20] ++ " was given")) :=
  ⟨rfl, rfl, cloud_cover_range_filter.1 dfCloud 20 95 rfl rfl, by decide,
   cloud_cover_range_filter.2 dfCloud [Value.num 20] (by decide)⟩

/-- C8: a filter naming an attribute that no product in the collection
carries raises `AttributeNotFoundError` whose message names that missing
attribute, instead of silently dropping rows; this holds for the reserved
cloud-cover key (with a well-formed 2-element range) and for every other
key alike. -/
theorem missing_attribute_raises_not_found (df : DataFrame) (key : String)
    (vals : List Value) (rest : List (String × List Value))
    (h : hasColumn df key = false)
    (h2 : key = "cloudCover" → vals.length = 2) :
    filter_by_attributes df ((key, vals) :: rest) =
      Except.error (PyErr.attributeNotFoundError (attrNotFoundMsg key)) := by
  by_cases hk : key = "cloudCover"
  · subst hk
    have hv : vals.length = 2 := h2 rfl
    obtain ⟨a, b, rfl⟩ : ∃ a b, vals = [a, b] := by
      cases vals with
      | nil => simp at hv
      | cons a t =>
          cases t with
          | nil => simp at hv
          | cons b t2 =>
              cases t2 with
              | nil => exact ⟨a, b, rfl⟩
              | cons c t3 => simp at hv
    simp [filter_by_attributes, filter_by_cloud_cover, h]
  · have hkb : (key == "cloudCover") = false := by
      simpa using hk
    simp [filter_by_attributes, hkb, _filter_by_attrs, h]

/-- Witness for C8: filtering the concrete optical collection on the absent
`orbitDirection` attribute raises `AttributeNotFoundError` naming it. -/
theorem missing_attribute_raises_not_found_witness :
    hasColumn dfCloud "orbitDirection" = false ∧
    filter_by_attributes dfCloud [("orbitDirection", [Value.str "ASCENDING"])] =
      Except.error (PyErr.attributeNotFoundError
        "'orbitDirection' is not found in the product attributes.") :=
  ⟨rfl, missing_attribute_raises_not_found dfCloud "orbitDirection"
    [Value.str "ASCENDING"] [] rfl (fun hc => absurd hc (by decide))⟩

end Copernicus

namespace Copernicus

/-- Each submitted download worker produces exactly one outcome — one file
written on success, one captured exception on failure, never both — issues
exactly one token-endpoint request, and ticks the progress bar exactly once
when progress is shown. Shared helper. -/
theorem download_worker_single_outcome (w : World) (o : String) (sp : Bool)
    (p : Product) :
    (download_worker w o sp p).filesWritten.length
        + (optToList (download_worker w o sp p).raised).length = 1 ∧
    (download_worker w o sp p).tokenFetches = 1 ∧
    (download_worker w o sp p).pbarTicks = (if sp then 1 else 0) := by
  unfold download_worker download_by_id
  cases get_access_token w.token_http with
  | error e => simp [optToList]
  | ok t =>
      by_cases hd : w.download_ok p.Id = true
      · simp [hd, optToList]
      · simp [hd, optToList]

/-- Over a batch of N submitted tasks the aggregate effects count exactly N
outcomes, N token requests and (when shown) N progress ticks. Shared
helper. -/
theorem run_batch_counts (w : World) (o : String) (sp : Bool) (ps : List Product) :
    (run_batch w o sp ps).filesWritten.length
        + (run_batch w o sp ps).capturedErrors.length = ps.length ∧
    (run_batch w o sp ps).tokenFetches = ps.length ∧
    (run_batch w o sp ps).pbarUpdates = (if sp then ps.length else 0) := by
  induction ps with
  | nil => simp [run_batch]
  | cons p ps ih =>
      obtain ⟨ih1, ih2, ih3⟩ := ih
      obtain ⟨w1, w2, w3⟩ := download_worker_single_outcome w o sp p
      simp only [run_batch, List.length_append, List.length_cons]
      refine ⟨?_, ?_, ?_⟩
      · omega
      · omega
      · rw [ih3, w3]
        cases sp
        · simp
        · simp
          omega

/-- C1 as amended: with any positive effective pool size, `download_all`
runs every one of the N submitted tasks to completion — a single task's
failure cancels neither its siblings nor the pool, the batch never aborts
early, successes plus captured failures total exactly N, and the progress
bar ticks exactly N times — and the effects are the same for every
concurrency value; however each failure is only captured inside the
dropped `Future` of its task (`capturedErrors`), and the call returns
`None` to the caller, so no aggregate of N outcomes is surfaced (see the
counterexample). -/
theorem download_all_isolates_task_failures (w : World) (ps : List Product)
    (out_dir : String) (threads : Nat) (sp : Bool)
    (ht : effective_threads threads w.cpu_count ps.length ≠ 0) :
    ∃ e : BatchEffects,
      download_all w ps out_dir threads sp = Except.ok (e, ()) ∧
      e.filesWritten.length + e.capturedErrors.length = ps.length ∧
      e.pbarUpdates = (if sp then ps.length else 0) ∧
      (∀ threads2, effective_threads threads2 w.cpu_count ps.length ≠ 0 →
        download_all w ps out_dir threads2 sp = Except.ok (e, ())) := by
  refine ⟨run_batch w out_dir sp ps, ?_,
    (run_batch_counts w out_dir sp ps).1,
    (run_batch_counts w out_dir sp ps).2.2, ?_⟩
  · unfold download_all
    rw [if_neg ht]
  · intro t2 ht2
    unfold download_all
    rw [if_neg ht2]

/-- Witness for C1 as amended, on the spec's two-product batch where the
download of product id "b" fails. -/
theorem download_all_isolates_task_failures_witness :
    ∃ e : BatchEffects,
      download_all wFail prods2 "out" 4 true = Except.ok (e, ()) ∧
      e.filesWritten.length + e.capturedErrors.length = prods2.length ∧
      e.pbarUpdates = (if true then prods2.length else 0) ∧
      (∀ threads2, effective_threads threads2 wFail.cpu_count prods2.length ≠ 0 →
        download_all wFail prods2 "out" threads2 true = Except.ok (e, ())) :=
  download_all_isolates_task_failures wFail prods2 "out" 4 true (by decide)

/-- Counterexample to C1 as stated: on the two-product batch where "b"
fails, the sibling task still writes out/P1.zip and the failure is captured
— but the value `download_all` returns to the caller is `None`, identical
to the all-success run's, so the failure is never surfaced as part of any
aggregate result of 2 outcomes. -/
theorem download_all_no_aggregate_surfaced :
    download_all wFail prods2 "out" 4 true =
      Except.ok ({ tokenFetches := 2, pbarUpdates := 2
                 , filesWritten := ["out/P1.zip"]
                 , capturedErrors := ["Failed to download P2: ConnectionError"] }, ()) ∧
    (download_all wFail prods2 "out" 4 true).map Prod.snd =
      (download_all wOk prods2 "out" 4 true).map Prod.snd :=
  ⟨rfl, rfl⟩

/-- C2 as amended: `download_all` fetches one fresh access token per
downloaded file — N token-endpoint requests for an N-product batch, each
issued inside that file's `download_by_id` call and discarded with it —
not one for the whole batch (see the counterexample). -/
theorem download_all_token_per_file (w : World) (ps : List Product)
    (out_dir : String) (threads : Nat) (sp : Bool)
    (ht : effective_threads threads w.cpu_count ps.length ≠ 0) :
    ∃ e : BatchEffects,
      download_all w ps out_dir threads sp = Except.ok (e, ()) ∧
      e.tokenFetches = ps.length ∧
      (∀ uid path, (download_by_id w uid path).tokenFetches = 1) := by
  refine ⟨run_batch w out_dir sp ps, ?_, (run_batch_counts w out_dir sp ps).2.1, ?_⟩
  · unfold download_all
    rw [if_neg ht]
  · intro uid path
    unfold download_by_id
    cases get_access_token w.token_http with
    | error e => rfl
    | ok t =>
        by_cases hd : w.download_ok uid = true
        · simp [hd]
        · simp [hd]

/-- Witness for C2 as amended, on the two-product batch. -/
theorem download_all_token_per_file_witness :
    ∃ e : BatchEffects,
      download_all wOk prods2 "out" 4 true = Except.ok (e, ()) ∧
      e.tokenFetches = prods2.length ∧
      (∀ uid path, (download_by_id wOk uid path).tokenFetches = 1) :=
  download_all_token_per_file wOk prods2 "out" 4 true (by decide)

/-- Counterexample to C2 as stated: downloading the two-product batch
issues two token-endpoint requests, not the single per-batch request the
claim asserts. -/
theorem download_all_two_products_two_tokens :
    download_all wOk prods2 "out" 4 true =
      Except.ok ({ tokenFetches := 2, pbarUpdates := 2
                 , filesWritten := ["out/P1.zip", "out/P2.zip"]
                 , capturedErrors := [] }, ()) ∧
    (2 : Nat) ≠ 1 :=
  ⟨rfl, by decide⟩

end Copernicus
